import Mathlib

/-!
Shallow embedding of the Makeblock mBot protocol engine
(src/protocol/robots/makeblock/mbot/api.js of the coding-with-chrome
repository), together with spec-level definitions used to check the
claims about it.

Modelling of JS numerics: byte values are Nat, the signed 32-bit results
of JS bitwise operators are Int with explicit wrapping, and the results of
the custom IEEE-754 float decoder are Rat (every double computation the
decoder performs is exact, see the comment on intBitsToFloat_).
Stateful methods are state passing functions that additionally return the
list of outbound transmissions or dispatched events produced by the call.
-/

/-- JS ToInt32: wrap an integer into the signed 32-bit range. -/
def toInt32 (n : Int) : Int := (n + 2 ^ 31) % 2 ^ 32 - 2 ^ 31

/-- The unsigned 32-bit pattern of an integer (its two's complement bits). -/
def toUint32 (n : Int) : Nat := (n % 2 ^ 32).toNat

/-- api.js fourBytesToInt_: `( b1 << 24 ) + ( b2 << 16 ) + ( b3 << 8 ) + b4`.
The JS left shift by 24 wraps its result into the signed 32-bit range; the
remaining terms are small and the double additions exact. -/
def fourBytesToInt_ (b1 b2 b3 b4 : Nat) : Int :=
  toInt32 ((b1 : Int) * 2 ^ 24) + (b2 : Int) * 2 ^ 16 + (b3 : Int) * 2 ^ 8 + (b4 : Int)

/-- api.js intBitsToFloat_. The JS bit operations on the signed 32-bit input
are expressed through its unsigned pattern u: `(num >> 31) == 0` holds iff
u < 2^31, `(num >> 23) & 0xff` is u / 2^23 % 256, and `num & 0x7fffff` is
u % 2^23. The double computation `sign * mantissa * Math.pow(2, exponent -
150)` is exact for every input (mantissa < 2^24 and the scaling is by a
power of two inside the double range), so the result is modelled as the
exact rational. -/
def intBitsToFloat_ (num : Int) : ℚ :=
  let u : Nat := toUint32 num
  let sign : ℚ := if u < 2 ^ 31 then 1 else -1
  let exponent : Nat := u / 2 ^ 23 % 256
  let mantissa : Nat := if exponent = 0 then u % 2 ^ 23 * 2 else u % 2 ^ 23 + 2 ^ 23
  sign * (mantissa : ℚ) * 2 ^ ((exponent : ℤ) - 150)

/-- JS `parseFloat(x.toFixed(2))` on an exactly representable x: round to
the nearest multiple of 1/100, ties toward the larger candidate. -/
def toFixed2 (q : ℚ) : ℚ := (⌊q * 100 + 1 / 2⌋ : ℚ) / 100

/-- api.js parseFloatBytes_: assemble dataBytes[3], dataBytes[2],
dataBytes[1], dataBytes[0] most significant byte first, decode as a float
and round to two decimals. A missing byte reads as JS undefined, which the
bit operations of fourBytesToInt_ coerce to 0, hence the 0 defaults. -/
def parseFloatBytes_ (dataBytes : List Nat) : ℚ :=
  let intValue := fourBytesToInt_ (dataBytes.getD 3 0) (dataBytes.getD 2 0)
    (dataBytes.getD 1 0) (dataBytes.getD 0 0)
  toFixed2 (intBitsToFloat_ intValue)

/- Modelled from the spec: cwc.protocol.makeblock.mbot.CallbackType is
required by api.js but its source file is not under src/. The spec fixes
only the five names and that they are distinct single byte indexType
values, so arbitrary distinct byte values are used here. -/
namespace CallbackType

def VERSION : Nat := 0x20

def ULTRASONIC : Nat := 0x10

def LINEFOLLOWER : Nat := 0x11

def LIGHTSENSOR : Nat := 0x12

def INNER_BUTTON : Nat := 0x13

end CallbackType

/-- Modelled from the spec: cwc.utils.ByteTools.isArrayBufferEqual is not
under src/; the spec asks for bytewise equality, checked as equal length
plus equal bytes at every shared position. -/
def isArrayBufferEqual (a b : List Nat) : Bool :=
  a.length == b.length && (List.zip a b).all fun p => p.1 == p.2

/-- A JS parameter object as passed to the command handler: key value
pairs. -/
abbrev Params := List (String × Nat)

/-- Modelled from the spec: cwc.protocol.makeblock.mbot.Handler (the
command table) is not under src/. The spec says each recognized name maps
to a pure encode function producing an outbound byte buffer; the byte
encodings themselves are unspecified, so a buffer is represented as the
command tag applied to its parameter object. -/
inductive Cmd where
  | playTone (data : Params)
  | getVersion (data : Params)
  | stop (data : Params)
  deriving DecidableEq

/-- Modelled from the spec: the recognized command names of the handler
table with their encode functions. -/
def handlerTable : List (String × (Params → Cmd)) :=
  [("playTone", Cmd.playTone), ("getVersion", Cmd.getVersion), ("stop", Cmd.stop)]

/-- JS `this.handler[command]`: undefined for an unrecognized name. -/
def handlerFunction (command : String) : Option (Params → Cmd) :=
  handlerTable.lookup command

/-- A JS runtime fault that propagates to the caller: applying
`this.handler[command]` when it is undefined raises a TypeError. -/
inductive JsError where
  | typeError
  deriving DecidableEq

/-- The transport device collaborator: an identity plus the reported link
connectivity. -/
structure Device where
  id : Nat
  connected : Bool
  deriving DecidableEq

/-- Events dispatched on the engine event handler. `data[0]` of an empty
button payload is JS undefined, hence the Option. -/
inductive Event where
  | buttonPressed (value : Option Nat)
  | lightnessSensorValue (value : ℚ)
  | linefollowerSensorValue (left right : Bool) (raw : List Nat)
  | ultrasonicSensorValue (value : ℚ)
  deriving DecidableEq

/-- An outbound transmission `device.send(buffer)`, recorded as the target
device id and the buffer. -/
abbrev OutMsg := Nat × Cmd

/-- The engine state of cwc.protocol.makeblock.mbot.Api: the attached
device, the prepared flag, the sensor data cache keyed by indexType byte,
and the running flag of the (spec modelled) monitoring loop. -/
structure MBot where
  device : Option Device
  prepared : Bool
  sensorDataCache : Nat → Option (List Nat)
  monitoringActive : Bool

/-- The constructor state: no device, not prepared, empty cache, no
monitoring. -/
def mBot0 : MBot :=
  { device := none, prepared := false, sensorDataCache := fun _ => none,
    monitoringActive := false }

/-- api.js getBuffer: `this.handler[command](data)`; a TypeError when the
command is unrecognized. -/
def getBuffer (command : String) (data : Params) : Except JsError Cmd :=
  match handlerFunction command with
  | some f => .ok (f data)
  | none => .error .typeError

/-- api.js send: transmit only when a device is attached. -/
def send (st : MBot) (buffer : Cmd) : MBot × List OutMsg :=
  match st.device with
  | some d => (st, [(d.id, buffer)])
  | none => (st, [])

/-- api.js exec: build the buffer with the handler, then send it. -/
def exec (st : MBot) (command : String) (data : Params) :
    Except JsError (MBot × List OutMsg) :=
  match getBuffer command data with
  | .ok buffer => .ok (send st buffer)
  | .error e => .error e

/-- api.js isConnected: a device is attached and its link is connected. -/
def isConnectedApi (st : MBot) : Bool :=
  match st.device with
  | some d => d.connected
  | none => false

/-- api.js monitor: start the monitoring loop when enabled and connected,
stop it when disabled. The Monitoring component is not under src/ and is
modelled from the spec as a running flag: polls are timer driven, at a
fixed interval, so none is issued during start itself. -/
def monitor (st : MBot) (enable : Bool) : MBot :=
  if enable && isConnectedApi st then { st with monitoringActive := true }
  else if !enable then { st with monitoringActive := false }
  else st

/-- api.js prepare: two playTone commands, one getVersion command, start
monitoring, set the prepared flag. The receive event listener registration
has no effect on the modelled state. -/
def prepare (st : MBot) : Except JsError (MBot × List OutMsg) :=
  match exec st "playTone" [("frequency", 524), ("duration", 240)] with
  | .error e => .error e
  | .ok (st1, m1) =>
    match exec st1 "playTone" [("frequency", 584), ("duration", 240)] with
    | .error e => .error e
    | .ok (st2, m2) =>
      match exec st2 "getVersion" [] with
      | .error e => .error e
      | .ok (st3, m3) =>
        let st4 := monitor st3 true
        .ok ({ st4 with prepared := true }, m1 ++ m2 ++ m3)

/-- api.js connect: false for a missing device; attach the device and run
prepare exactly when not yet prepared and the device link is connected. -/
def connect (st : MBot) (device : Option Device) :
    Except JsError (Bool × MBot × List OutMsg) :=
  match device with
  | none => .ok (false, st, [])
  | some dev =>
    if !st.prepared && dev.connected then
      match prepare { st with device := some dev } with
      | .error e => .error e
      | .ok (st2, msgs) => .ok (true, st2, msgs)
    else
      .ok (true, st, [])

/-- api.js reset: clear the sensor cache and, with a device attached, send
the stop command (device.reset only touches the transport). -/
def reset (st : MBot) : Except JsError (MBot × List OutMsg) :=
  let st1 : MBot := { st with sensorDataCache := fun _ => none }
  match st1.device with
  | some _ => exec st1 "stop" []
  | none => .ok (st1, [])

/-- The size guard of api.js handleSensorData_:
`opt_data_size && data.length < opt_data_size` (a JS number is truthy
exactly when nonzero). -/
def sizeGuardFails (opt_data_size : Option Nat) (data : List Nat) : Bool :=
  match opt_data_size with
  | some n => !(n == 0) && decide (data.length < n)
  | none => false

/-- The cache test of api.js handleSensorData_: the entry is defined and
bytewise equal to the new payload. -/
def cacheHit (st : MBot) (index_type : Nat) (data : List Nat) : Bool :=
  match st.sensorDataCache index_type with
  | some cached => isArrayBufferEqual cached data
  | none => false

/-- api.js handleSensorData_: drop payloads shorter than the requested
size, suppress payloads bytewise equal to the cached one, otherwise store
the payload in the cache and dispatch the event of the indexType (none for
an indexType outside the switch). -/
def handleSensorData_ (st : MBot) (index_type : Nat) (data : List Nat)
    (opt_data_size : Option Nat) : MBot × List Event :=
  if sizeGuardFails opt_data_size data then (st, [])
  else if cacheHit st index_type data then (st, [])
  else
    let st1 : MBot :=
      { st with sensorDataCache :=
          Function.update st.sensorDataCache index_type (some data) }
    if index_type = CallbackType.INNER_BUTTON then
      (st1, [Event.buttonPressed data.head?])
    else if index_type = CallbackType.LIGHTSENSOR then
      (st1, [Event.lightnessSensorValue (parseFloatBytes_ data)])
    else if index_type = CallbackType.LINEFOLLOWER then
      (st1, [Event.linefollowerSensorValue (decide (64 ≤ data.getD 3 0))
        (decide (64 ≤ data.getD 2 0)) data])
    else if index_type = CallbackType.ULTRASONIC then
      (st1, [Event.ultrasonicSensorValue (parseFloatBytes_ data)])
    else (st1, [])

/-- api.js handleData_: indexType at offset 2, payload from offset 4;
float and line follower sensors pass a minimum size of 4, the button none.
VERSION only logs; an unknown indexType only logs. -/
def handleData_ (st : MBot) (dataBuffer : List Nat) : MBot × List Event :=
  let indexType := dataBuffer.getD 2 0
  let data := dataBuffer.drop 4
  if indexType = CallbackType.VERSION then (st, [])
  else if indexType = CallbackType.ULTRASONIC ∨ indexType = CallbackType.LINEFOLLOWER ∨
      indexType = CallbackType.LIGHTSENSOR then
    handleSensorData_ st indexType data (some 4)
  else if indexType = CallbackType.INNER_BUTTON then
    handleSensorData_ st indexType data none
  else (st, [])

/-- The frame loop of api.js handleOnReceive_: frames of length at most 4
(empty and OK packages 0xff 0x55 0x0d 0x0a) are ignored, the rest go to
handleData_ in order. -/
def processDataBuffers (st : MBot) (bufs : List (List Nat)) : MBot × List Event :=
  match bufs with
  | [] => (st, [])
  | b :: rest =>
    if b.length > 4 then
      let r1 := handleData_ st b
      let r2 := processDataBuffers r1.1 rest
      (r2.1, r1.2 ++ r2.2)
    else processDataBuffers st rest

/-- api.js handleOnReceive_: the stream reader returns nothing or a list
of complete frames; each frame is processed in order. The StreamReader
component is not under src/, so its output is taken as the input here. -/
def handleOnReceive_ (st : MBot) (framerOutput : Option (List (List Nat))) :
    MBot × List Event :=
  match framerOutput with
  | none => (st, [])
  | some bufs => processDataBuffers st bufs

/-- Spec side definition (refinement reference): the signed two's
complement reading of a 32-bit pattern, most significant byte carrying the
sign. -/
def int32OfBits (u : Nat) : Int :=
  if u % 2 ^ 32 < 2 ^ 31 then (u % 2 ^ 32 : Int) else (u % 2 ^ 32 : Int) - 2 ^ 32

/-- Spec side definition (refinement reference): the standard IEEE-754
single precision decoding of a normal bit pattern, following the words of
the spec: sign from bit 31, exponent from bits 30 to 23, fraction from
bits 22 to 0, value (-1)^s * (1 + f / 2^23) * 2^(e - 127). -/
def ieee754DecodeNormal (u : Nat) : ℚ :=
  let s : Nat := u / 2 ^ 31 % 2
  let e : Nat := u / 2 ^ 23 % 256
  let f : Nat := u % 2 ^ 23
  (-1 : ℚ) ^ s * (1 + (f : ℚ) / 2 ^ 23) * 2 ^ ((e : ℤ) - 127)

/-! ## Helper lemmas -/

theorem toUint32_int32OfBits (u : Nat) (h : u < 2 ^ 32) :
    toUint32 (int32OfBits u) = u := by
  unfold toUint32 int32OfBits
  split <;> omega

/-- C5: fourBytesToInt_ assembles the signed two's complement 32-bit
integer with b1 as the most significant byte and b4 as the least
significant one, the signed interpretation of b1 * 2^24 + b2 * 2^16 +
b3 * 2^8 + b4 modulo 2^32. -/
theorem fourBytesToInt_signed (b1 b2 b3 b4 : Nat)
    (h1 : b1 < 256) (h2 : b2 < 256) (h3 : b3 < 256) (h4 : b4 < 256) :
    fourBytesToInt_ b1 b2 b3 b4 =
      int32OfBits ((b1 * 2 ^ 24 + b2 * 2 ^ 16 + b3 * 2 ^ 8 + b4) % 2 ^ 32) := by
  unfold fourBytesToInt_ toInt32 int32OfBits
  split <;> push_cast <;> omega

/-- C5 witness: concrete byte quadruples, one with the sign bit clear and
one with it set. -/
theorem fourBytesToInt_signed_witness :
    fourBytesToInt_ 0x12 0x34 0x56 0x78 =
      int32OfBits ((0x12 * 2 ^ 24 + 0x34 * 2 ^ 16 + 0x56 * 2 ^ 8 + 0x78) % 2 ^ 32) ∧
    fourBytesToInt_ 0xFF 0xFF 0xFF 0xFF =
      int32OfBits ((0xFF * 2 ^ 24 + 0xFF * 2 ^ 16 + 0xFF * 2 ^ 8 + 0xFF) % 2 ^ 32) :=
  ⟨fourBytesToInt_signed 0x12 0x34 0x56 0x78 (by decide) (by decide) (by decide) (by decide),
   fourBytesToInt_signed 0xFF 0xFF 0xFF 0xFF (by decide) (by decide) (by decide) (by decide)⟩

/-- C2: on every normal single precision pattern (exponent field neither 0
nor 255), intBitsToFloat_ applied to the signed reading of the pattern
returns sign times mantissa (with the implicit leading bit) times
2^(exponent - 150), which is the standard IEEE-754 decoding of the
pattern; in particular the pattern 0x43480000 decodes to 200 and the
pattern 0 decodes to 0. -/
theorem intBitsToFloat_ieee754 :
    (∀ u : Nat, u < 2 ^ 32 → u / 2 ^ 23 % 256 ≠ 0 → u / 2 ^ 23 % 256 ≠ 255 →
      intBitsToFloat_ (int32OfBits u) = ieee754DecodeNormal u) ∧
    intBitsToFloat_ (int32OfBits 0x43480000) = 200 ∧
    intBitsToFloat_ (int32OfBits 0) = 0 := by
  have general : ∀ u : Nat, u < 2 ^ 32 → u / 2 ^ 23 % 256 ≠ 0 →
      intBitsToFloat_ (int32OfBits u) = ieee754DecodeNormal u := by
    intro u hu he0
    unfold intBitsToFloat_ ieee754DecodeNormal
    rw [toUint32_int32OfBits u hu]
    dsimp only
    rw [if_neg he0]
    have hsplit : (2 : ℚ) ^ (((u / 2 ^ 23 % 256 : ℕ) : ℤ) - 127) =
        2 ^ (((u / 2 ^ 23 % 256 : ℕ) : ℤ) - 150) * 8388608 := by
      have harith : ((u / 2 ^ 23 % 256 : ℕ) : ℤ) - 127 =
          (((u / 2 ^ 23 % 256 : ℕ) : ℤ) - 150) + 23 := by ring
      rw [harith, zpow_add₀ (by norm_num : (2 : ℚ) ≠ 0)]
      norm_num
    rw [hsplit]
    by_cases hlt : u < 2 ^ 31
    · have hs : u / 2 ^ 31 % 2 = 0 := by omega
      rw [if_pos hlt, hs]
      push_cast
      ring
    · have hs : u / 2 ^ 31 % 2 = 1 := by omega
      rw [if_neg hlt, hs]
      push_cast
      ring
  refine ⟨fun u hu he0 _ => general u hu he0, ?_, ?_⟩
  · rw [general 0x43480000 (by norm_num) (by norm_num)]
    norm_num [ieee754DecodeNormal]
  · show intBitsToFloat_ (int32OfBits 0) = 0
    have h0 : int32OfBits 0 = 0 := by norm_num [int32OfBits]
    rw [h0]
    unfold intBitsToFloat_ toUint32
    norm_num

/-- C2 witness: the pattern 0x3F800000 is normal and the theorem applied
there gives the standard decoding, which is 1. -/
theorem intBitsToFloat_ieee754_witness :
    (0x3F800000 : Nat) < 2 ^ 32 ∧ 0x3F800000 / 2 ^ 23 % 256 ≠ 0 ∧
      0x3F800000 / 2 ^ 23 % 256 ≠ 255 ∧
      intBitsToFloat_ (int32OfBits 0x3F800000) = ieee754DecodeNormal 0x3F800000 :=
  ⟨by norm_num, by norm_num, by norm_num,
    intBitsToFloat_ieee754.1 0x3F800000 (by norm_num) (by norm_num) (by norm_num)⟩

theorem isArrayBufferEqual_iff (a b : List Nat) :
    isArrayBufferEqual a b = true ↔ a = b := by
  induction a generalizing b with
  | nil =>
    cases b with
    | nil => simp [isArrayBufferEqual]
    | cons y ys => simp [isArrayBufferEqual]
  | cons x xs ih =>
    cases b with
    | nil => simp [isArrayBufferEqual]
    | cons y ys =>
      have h := ih ys
      simp only [isArrayBufferEqual, List.length_cons, List.zip_cons_cons,
        List.all_cons, Bool.and_eq_true, beq_iff_eq, Nat.succ.injEq,
        List.cons.injEq] at h ⊢
      constructor
      · rintro ⟨hl, hxy, hall⟩
        exact ⟨hxy, h.mp ⟨hl, hall⟩⟩
      · rintro ⟨hxy, hxs⟩
        rcases h.mpr hxs with ⟨hl, hall⟩
        exact ⟨hl, hxy, hall⟩

theorem cacheHit_iff (st : MBot) (index_type : Nat) (data : List Nat) :
    cacheHit st index_type data = true ↔
      st.sensorDataCache index_type = some data := by
  unfold cacheHit
  cases h : st.sensorDataCache index_type with
  | none => simp
  | some cached => simp [isArrayBufferEqual_iff]

theorem handleSensorData_cached (st : MBot) (index_type : Nat)
    (data : List Nat) (opt_data_size : Option Nat)
    (hc : st.sensorDataCache index_type = some data) :
    handleSensorData_ st index_type data opt_data_size = (st, []) := by
  unfold handleSensorData_
  by_cases hs : sizeGuardFails opt_data_size data
  · rw [if_pos hs]
  · rw [if_neg hs, if_pos ((cacheHit_iff st index_type data).mpr hc)]

/-- C1: delivering a payload that is the cached value of its indexType
dispatches no event and leaves the whole state unchanged; the cache entry
of an indexType changes only when the new payload differs bytewise from
the stored one; and for a sensor indexType whose payload passes the size
guard, two consecutive identical fresh payloads dispatch exactly one
event, the second call returning with no event and an unchanged state. -/
theorem handleSensorData_duplicate_suppression (st : MBot) (index_type : Nat)
    (data : List Nat) (opt_data_size : Option Nat) :
    (st.sensorDataCache index_type = some data →
      handleSensorData_ st index_type data opt_data_size = (st, [])) ∧
    ((handleSensorData_ st index_type data opt_data_size).1.sensorDataCache index_type ≠
        st.sensorDataCache index_type →
      st.sensorDataCache index_type ≠ some data) ∧
    (sizeGuardFails opt_data_size data = false →
      st.sensorDataCache index_type ≠ some data →
      (index_type = CallbackType.ULTRASONIC ∨ index_type = CallbackType.LIGHTSENSOR ∨
        index_type = CallbackType.LINEFOLLOWER ∨ index_type = CallbackType.INNER_BUTTON) →
      ((handleSensorData_ st index_type data opt_data_size).2.length = 1 ∧
        handleSensorData_ (handleSensorData_ st index_type data opt_data_size).1
          index_type data opt_data_size =
          ((handleSensorData_ st index_type data opt_data_size).1, []))) := by
  refine ⟨fun hc => handleSensorData_cached st index_type data opt_data_size hc,
    fun hne hc => hne ?_, fun hs hfresh hidx => ?_⟩
  · rw [handleSensorData_cached st index_type data opt_data_size hc]
  · have hch : cacheHit st index_type data = false := by
      cases h : cacheHit st index_type data with
      | false => rfl
      | true => exact absurd ((cacheHit_iff st index_type data).mp h) hfresh
    have hfirst : handleSensorData_ st index_type data opt_data_size =
        ({ st with sensorDataCache :=
            Function.update st.sensorDataCache index_type (some data) },
          (handleSensorData_ st index_type data opt_data_size).2) := by
      unfold handleSensorData_
      rw [if_neg (by simp [hs]), if_neg (by simp [hch])]
      rcases hidx with h | h | h | h <;> subst h <;>
        simp [CallbackType.ULTRASONIC, CallbackType.LIGHTSENSOR,
          CallbackType.LINEFOLLOWER, CallbackType.INNER_BUTTON]
    have hlen : (handleSensorData_ st index_type data opt_data_size).2.length = 1 := by
      unfold handleSensorData_
      rw [if_neg (by simp [hs]), if_neg (by simp [hch])]
      rcases hidx with h | h | h | h <;> subst h <;>
        simp [CallbackType.ULTRASONIC, CallbackType.LIGHTSENSOR,
          CallbackType.LINEFOLLOWER, CallbackType.INNER_BUTTON]
    refine ⟨hlen, ?_⟩
    rw [hfirst]
    exact handleSensorData_cached _ index_type data opt_data_size
      (by simp [Function.update_same])

/-- C1 witness: the button indexType with payload [1] on the constructor
state: the first delivery dispatches one event, the second none and
leaves the state unchanged. -/
theorem handleSensorData_duplicate_suppression_witness :
    sizeGuardFails none [1] = false ∧
      mBot0.sensorDataCache CallbackType.INNER_BUTTON ≠ some [1] ∧
      ((handleSensorData_ mBot0 CallbackType.INNER_BUTTON [1] none).2.length = 1 ∧
        handleSensorData_ (handleSensorData_ mBot0 CallbackType.INNER_BUTTON [1] none).1
          CallbackType.INNER_BUTTON [1] none =
          ((handleSensorData_ mBot0 CallbackType.INNER_BUTTON [1] none).1, [])) :=
  ⟨rfl, by simp [mBot0],
    (handleSensorData_duplicate_suppression mBot0 CallbackType.INNER_BUTTON [1] none).2.2
      rfl (by simp [mBot0]) (Or.inr (Or.inr (Or.inr rfl)))⟩

/-- C3: for the float decoded and line follower indexTypes, which are
handled with a minimum data size of 4, a payload shorter than 4 bytes
makes handleSensorData_ return with no event and the state, cache
included, exactly as before the call. -/
theorem handleSensorData_short_payload (st : MBot) (index_type : Nat)
    (data : List Nat)
    (hidx : index_type = CallbackType.ULTRASONIC ∨
      index_type = CallbackType.LIGHTSENSOR ∨
      index_type = CallbackType.LINEFOLLOWER)
    (hlen : data.length < 4) :
    handleSensorData_ st index_type data (some 4) = (st, []) := by
  unfold handleSensorData_
  rw [if_pos (by simp [sizeGuardFails, hlen])]

/-- C3 witness: a three byte ultrasonic payload on the constructor state
is dropped without any state change. -/
theorem handleSensorData_short_payload_witness :
    handleSensorData_ mBot0 CallbackType.ULTRASONIC [1, 2, 3] (some 4) = (mBot0, []) :=
  handleSensorData_short_payload mBot0 CallbackType.ULTRASONIC [1, 2, 3]
    (Or.inl rfl) (by decide)

/-- C4: a line follower payload of at least 4 bytes that is not the cached
value dispatches one LinefollowerSensorValue event with left decided by
payload byte 3 being at least 64, right decided by payload byte 2 being at
least 64, and the raw payload attached; the cache entry is updated to the
payload. -/
theorem handleSensorData_linefollower (st : MBot) (data : List Nat)
    (hlen : 4 ≤ data.length)
    (hfresh : st.sensorDataCache CallbackType.LINEFOLLOWER ≠ some data) :
    handleSensorData_ st CallbackType.LINEFOLLOWER data (some 4) =
      ({ st with sensorDataCache :=
          Function.update st.sensorDataCache CallbackType.LINEFOLLOWER (some data) },
        [Event.linefollowerSensorValue (decide (64 ≤ data.getD 3 0))
          (decide (64 ≤ data.getD 2 0)) data]) := by
  have hch : cacheHit st CallbackType.LINEFOLLOWER data = false := by
    cases h : cacheHit st CallbackType.LINEFOLLOWER data with
    | false => rfl
    | true => exact absurd ((cacheHit_iff st CallbackType.LINEFOLLOWER data).mp h) hfresh
  unfold handleSensorData_
  rw [if_neg (by simp [sizeGuardFails]; omega), if_neg (by simp [hch])]
  simp [CallbackType.LINEFOLLOWER, CallbackType.INNER_BUTTON, CallbackType.LIGHTSENSOR]

/-- C4 witness: the payload with byte 2 equal to 70 and byte 3 equal to 50
decodes to left false and right true. -/
theorem handleSensorData_linefollower_witness :
    (handleSensorData_ mBot0 CallbackType.LINEFOLLOWER [0, 0, 70, 50] (some 4)).2 =
      [Event.linefollowerSensorValue false true [0, 0, 70, 50]] := by
  rw [handleSensorData_linefollower mBot0 [0, 0, 70, 50] (by decide) (by simp [mBot0])]
  decide

theorem handlerFunction_playTone :
    handlerFunction "playTone" = some Cmd.playTone := rfl

theorem handlerFunction_getVersion :
    handlerFunction "getVersion" = some Cmd.getVersion := rfl

theorem exec_known (st : MBot) (command : String) (f : Params → Cmd)
    (data : Params) (h : handlerFunction command = some f) :
    exec st command data = .ok (send st (f data)) := by
  unfold exec getBuffer
  rw [h]

theorem send_dev (st : MBot) (dev : Device) (hdev : st.device = some dev)
    (b : Cmd) : send st b = (st, [(dev.id, b)]) := by
  unfold send
  rw [hdev]

theorem isConnectedApi_dev (st : MBot) (dev : Device)
    (hdev : st.device = some dev) : isConnectedApi st = dev.connected := by
  unfold isConnectedApi
  rw [hdev]

theorem prepare_with_device (st : MBot) (dev : Device)
    (hdev : st.device = some dev) (hc : dev.connected = true) :
    prepare st = .ok ({ st with prepared := true, monitoringActive := true },
      [(dev.id, Cmd.playTone [("frequency", 524), ("duration", 240)]),
       (dev.id, Cmd.playTone [("frequency", 584), ("duration", 240)]),
       (dev.id, Cmd.getVersion [])]) := by
  unfold prepare
  rw [exec_known st "playTone" Cmd.playTone _ handlerFunction_playTone,
    send_dev st dev hdev]
  dsimp only
  rw [exec_known st "playTone" Cmd.playTone _ handlerFunction_playTone,
    send_dev st dev hdev]
  dsimp only
  rw [exec_known st "getVersion" Cmd.getVersion _ handlerFunction_getVersion,
    send_dev st dev hdev]
  dsimp only
  unfold monitor
  rw [isConnectedApi_dev st dev hdev, hc]
  rfl

theorem connect_unprepared_eq (st : MBot) (dev : Device)
    (hp : st.prepared = false) (hc : dev.connected = true) :
    connect st (some dev) = .ok (true,
      { st with device := some dev, prepared := true, monitoringActive := true },
      [(dev.id, Cmd.playTone [("frequency", 524), ("duration", 240)]),
       (dev.id, Cmd.playTone [("frequency", 584), ("duration", 240)]),
       (dev.id, Cmd.getVersion [])]) := by
  unfold connect
  rw [hp]
  dsimp only
  rw [hc]
  simp only [Bool.not_false, Bool.true_and, eq_self_iff_true, if_true]
  rw [prepare_with_device
    { device := some dev, prepared := false, sensorDataCache := st.sensorDataCache,
      monitoringActive := st.monitoringActive } dev rfl hc]

/-- C6: connect on an unprepared engine with a link connected device sends
exactly three outbound commands, two playTone commands followed by one
getVersion command in that order, and only then is the engine marked
prepared and monitoring started; no monitoring poll appears among the
outbound commands of the call. -/
theorem connect_three_commands (st : MBot) (dev : Device)
    (hp : st.prepared = false) (hc : dev.connected = true) :
    connect st (some dev) = .ok (true,
      { st with device := some dev, prepared := true, monitoringActive := true },
      [(dev.id, Cmd.playTone [("frequency", 524), ("duration", 240)]),
       (dev.id, Cmd.playTone [("frequency", 584), ("duration", 240)]),
       (dev.id, Cmd.getVersion [])]) :=
  connect_unprepared_eq st dev hp hc

/-- C6 witness: the constructor state with a connected device. -/
theorem connect_three_commands_witness :
    connect mBot0 (some { id := 5, connected := true }) = .ok (true,
      { mBot0 with
          device := some { id := 5, connected := true },
          prepared := true,
          monitoringActive := true },
      [(5, Cmd.playTone [("frequency", 524), ("duration", 240)]),
       (5, Cmd.playTone [("frequency", 584), ("duration", 240)]),
       (5, Cmd.getVersion [])]) :=
  connect_three_commands mBot0 { id := 5, connected := true } rfl rfl

/-- A concrete engine state for checking what connect does to an existing
cache and device reference: already prepared, device with id 1 attached,
one ultrasonic payload cached. -/
def c7State : MBot :=
  { device := some { id := 1, connected := true },
    prepared := true,
    sensorDataCache := Function.update (fun _ => none) CallbackType.ULTRASONIC
      (some [1, 2, 3, 4]),
    monitoringActive := true }

/-- A concrete connected device with id 2, distinct from the one attached
in c7State. -/
def c7Device : Device := { id := 2, connected := true }

/-- C7 counterexample: connecting the link connected device with id 2 to
the engine state c7State leaves the previously attached device with id 1
in place and leaves the cached ultrasonic payload in the cache, so connect
neither replaces the device reference in every state nor ever empties the
cache. -/
theorem connect_counterexample :
    (connect c7State (some c7Device)).map
      (fun r => (r.2.1.device, r.2.1.sensorDataCache CallbackType.ULTRASONIC)) =
      .ok (some { id := 1, connected := true }, some [1, 2, 3, 4]) := rfl

/-- C7 amended: for every engine state and every device whose link reports
connected, connect leaves the sensor cache exactly unchanged (never
cleared; clearing is done by reset), and it replaces the attached device
reference with the given device exactly when the engine is not yet
prepared, leaving the reference unchanged otherwise. -/
theorem connect_device_and_cache (st : MBot) (dev : Device)
    (hc : dev.connected = true) :
    ∃ stOut msgs, connect st (some dev) = .ok (true, stOut, msgs) ∧
      stOut.sensorDataCache = st.sensorDataCache ∧
      stOut.device = (if st.prepared then st.device else some dev) := by
  cases hp : st.prepared with
  | true =>
    refine ⟨st, [], ?_, rfl, ?_⟩
    · unfold connect
      rw [hp]
      rfl
    · rw [if_pos rfl]
  | false =>
    refine ⟨{ st with device := some dev, prepared := true, monitoringActive := true },
      [(dev.id, Cmd.playTone [("frequency", 524), ("duration", 240)]),
       (dev.id, Cmd.playTone [("frequency", 584), ("duration", 240)]),
       (dev.id, Cmd.getVersion [])], ?_, rfl, ?_⟩
    · exact connect_unprepared_eq st dev hp hc
    · rw [if_neg (by simp)]

/-- C7 amended witness: the state c7State (prepared, cache populated) with
the device c7Device. -/
theorem connect_device_and_cache_witness :
    ∃ stOut msgs, connect c7State (some c7Device) = .ok (true, stOut, msgs) ∧
      stOut.sensorDataCache = c7State.sensorDataCache ∧
      stOut.device = (if c7State.prepared then c7State.device else some c7Device) :=
  connect_device_and_cache c7State c7Device rfl

/-- C8: for a command name that is not in the handler table, both exec and
getBuffer fail with the TypeError raised by applying the undefined handler
entry; neither silently succeeds nor returns a buffer. -/
theorem exec_unknown_command_fails (st : MBot) (command : String)
    (data : Params) (h : handlerFunction command = none) :
    exec st command data = .error .typeError ∧
      getBuffer command data = .error .typeError := by
  have hg : getBuffer command data = .error .typeError := by
    unfold getBuffer
    rw [h]
  refine ⟨?_, hg⟩
  unfold exec
  rw [hg]

/-- C8 witness: the command name forward is not in the handler table. -/
theorem exec_unknown_command_fails_witness :
    exec mBot0 "forward" [] = .error .typeError ∧
      getBuffer "forward" [] = .error .typeError :=
  exec_unknown_command_fails mBot0 "forward" [] rfl

/-- C9: executing a recognized command while no device is attached
completes without any fault, sends nothing, and returns the engine state
unchanged. -/
theorem exec_disconnected_noop (st : MBot) (command : String) (data : Params)
    (f : Params → Cmd) (hf : handlerFunction command = some f)
    (hdev : st.device = none) :
    exec st command data = .ok (st, []) := by
  unfold exec getBuffer send
  rw [hf, hdev]

/-- C9 witness: playTone on the constructor state, which has no device. -/
theorem exec_disconnected_noop_witness :
    exec mBot0 "playTone" [("frequency", 524), ("duration", 240)] = .ok (mBot0, []) :=
  exec_disconnected_noop mBot0 "playTone" [("frequency", 524), ("duration", 240)]
    Cmd.playTone rfl rfl

theorem processDataBuffers_drop_short (fs1 fs2 : List (List Nat))
    (f : List Nat) (h : f.length ≤ 4) :
    ∀ st : MBot, processDataBuffers st (fs1 ++ f :: fs2) =
      processDataBuffers st (fs1 ++ fs2) := by
  induction fs1 with
  | nil =>
    intro st
    dsimp only [List.nil_append]
    rw [show processDataBuffers st (f :: fs2) =
        (if f.length > 4 then
          ((processDataBuffers (handleData_ st f).1 fs2).1,
            (handleData_ st f).2 ++ (processDataBuffers (handleData_ st f).1 fs2).2)
        else processDataBuffers st fs2) from rfl,
      if_neg (by omega)]
  | cons b rest ih =>
    intro st
    dsimp only [List.cons_append]
    rw [show processDataBuffers st (b :: (rest ++ f :: fs2)) =
        (if b.length > 4 then
          ((processDataBuffers (handleData_ st b).1 (rest ++ f :: fs2)).1,
            (handleData_ st b).2 ++
              (processDataBuffers (handleData_ st b).1 (rest ++ f :: fs2)).2)
        else processDataBuffers st (rest ++ f :: fs2)) from rfl,
      show processDataBuffers st (b :: (rest ++ fs2)) =
        (if b.length > 4 then
          ((processDataBuffers (handleData_ st b).1 (rest ++ fs2)).1,
            (handleData_ st b).2 ++
              (processDataBuffers (handleData_ st b).1 (rest ++ fs2)).2)
        else processDataBuffers st (rest ++ fs2)) from rfl]
    by_cases hb : b.length > 4
    · rw [if_pos hb, if_pos hb, ih]
    · rw [if_neg hb, if_neg hb, ih]

/-- C10: a frame of total length at most 4 anywhere in the stream reader
output (in particular the bare acknowledgement 0xFF 0x55 0x0D 0x0A) is
discarded by handleOnReceive_ without reaching handleData_: the result,
dispatched events and state included, is the same as if the frame had not
been delivered at all. -/
theorem handleOnReceive_drops_short_frames (st : MBot)
    (fs1 fs2 : List (List Nat)) (f : List Nat) (h : f.length ≤ 4) :
    handleOnReceive_ st (some (fs1 ++ f :: fs2)) =
      handleOnReceive_ st (some (fs1 ++ fs2)) :=
  processDataBuffers_drop_short fs1 fs2 f h st

/-- C10 witness: the acknowledgement frame 0xFF 0x55 0x0D 0x0A alone
produces nothing and changes nothing. -/
theorem handleOnReceive_drops_short_frames_witness :
    handleOnReceive_ mBot0 (some [[0xFF, 0x55, 0x0D, 0x0A]]) =
      handleOnReceive_ mBot0 (some []) :=
  handleOnReceive_drops_short_frames mBot0 [] [] [0xFF, 0x55, 0x0D, 0x0A] (by decide)
